import Mathlib

/-!
Shallow embedding of `account_asset_management/models/account_move.py`
(OCA `account-financial-tools`): the asset guard layer added on top of
`account.move` / `account.move.line`.

Records are modelled as structures, the record store as lists inside a
`State`, amounts as rationals, and the ambient Odoo context as an explicit
`Ctx`.  Each guarded ORM method (`unlink`, `write`, `post`,
`_reverse_move_vals`, `_expand_asset_line`) becomes a Lean function on
`State`; methods that can raise `UserError` return `Except GuardErr State`.
-/

/-- Ambient execution context flags consulted by the guards
(`self.env.context` in the source). -/
structure Ctx where
  allow_asset : Bool
  allow_asset_removal : Bool
  unlink_from_asset : Bool
  company_id : Option Nat
deriving DecidableEq, Repr

/-- `account.asset.profile`: only the fields this module reads. -/
structure AssetProfile where
  id : Nat
  asset_product_item : Bool
deriving DecidableEq, Repr

/-- `account.asset` record as created by `AccountMove.post`. -/
structure Asset where
  id : Nat
  name : String
  code : String
  profile_id : Nat
  purchase_value : Rat
  partner_id : Option Nat
  date_start : Nat
  account_analytic_id : Option Nat
  company_id : Option Nat
deriving DecidableEq, Repr

/-- `account.move` header: the fields the guards consult. -/
structure Move where
  id : Nat
  name : String
  date : Nat
  journal_id : Nat
  mtype : String
  ref : String
deriving DecidableEq, Repr

/-- `account.move.is_sale_document()`: customer invoice or refund. -/
def Move.is_sale_document (m : Move) : Bool :=
  m.mtype == "out_invoice" || m.mtype == "out_refund"

/-- `account.move.line` with the two fields this module adds
(`asset_profile_id`, `asset_id`) plus the base fields it touches. -/
structure MoveLine where
  id : Nat
  move_id : Nat
  name : String
  debit : Rat
  credit : Rat
  account_id : Nat
  journal_id : Nat
  date : Nat
  asset_profile_id : Option Nat
  asset_id : Option Nat
  quantity : Rat
  price_unit : Rat
  price_subtotal : Rat
  partner_id : Option Nat
  analytic_account_id : Option Nat
deriving DecidableEq, Repr

/-- `account.asset.line` (depreciation line): entry reference and type
(`"depreciate"`, `"remove"`, or `"create"`). -/
structure AssetLine where
  id : Nat
  move_id : Option Nat
  asset_id : Nat
  ltype : String
deriving DecidableEq, Repr

/-- The record store: all persisted records plus the audit messages posted
on moves (move id paired with the asset ids the message references) and
fresh-id counters for created records. -/
structure State where
  moves : List Move
  lines : List MoveLine
  assets : List Asset
  assetLines : List AssetLine
  profiles : List AssetProfile
  messages : List (Nat × List Nat)
  nextAssetId : Nat
  nextLineId : Nat
deriving DecidableEq, Repr

/-- The single error kind of the module: `UserError`, distinguished here
by which guard raised it. -/
inductive GuardErr where
  /-- unlink guard: entry linked to an asset. -/
  | linkedEntry
  /-- move write guard: entry linked to an asset depreciation line. -/
  | linkedDeprMove
  /-- line write guard: item linked to an asset depreciation line. -/
  | linkedDeprLine
  /-- create/write guard: not allowed to link an entry to an asset. -/
  | notAllowedLink
deriving DecidableEq, Repr

/-- Whether the line's move (looked up in the store) is a sale document;
an absent move behaves as a non-sale document (empty recordset). -/
def lineIsSale (st : State) (l : MoveLine) : Bool :=
  match st.moves.find? (fun m => m.id == l.move_id) with
  | some m => m.is_sale_document
  | none => false

/-! ### `AccountMove.post` (source lines 61-91) -/

/-- `depreciation_base = aml.debit or -aml.credit` (line 65): Python `or`
on floats picks the debit when it is nonzero, else the negated credit. -/
def depreciationBase (debit credit : Rat) : Rat :=
  if debit ≠ 0 then debit else -credit

/-- The `vals` dict built for `account.asset.create` (lines 66-76),
with the fresh id the store will assign. -/
def assetValsOfLine (ctx : Ctx) (move : Move) (aml : MoveLine) (freshId : Nat) :
    Asset :=
  { id := freshId
    name := aml.name
    code := move.name
    profile_id := aml.asset_profile_id.getD 0
    purchase_value := depreciationBase aml.debit aml.credit
    partner_id := aml.partner_id
    date_start := move.date
    account_analytic_id := aml.analytic_account_id
    company_id := ctx.company_id }

/-- One iteration of the inner loop of `post` (lines 64-82): create the
asset and back-link the line.  The back-link assignment runs under the
`allow_asset` context, so the line-write guard admits it. -/
def createAssetFromLine (ctx : Ctx) (move : Move) (aml : MoveLine)
    (st : State) : State :=
  let asset := assetValsOfLine ctx move aml st.nextAssetId
  { st with
    assets := st.assets ++ [asset]
    nextAssetId := st.nextAssetId + 1
    lines := st.lines.map (fun l =>
      if l.id == aml.id then { l with asset_id := some asset.id } else l) }

/-- `move.line_ids.filtered("asset_profile_id")`. -/
def profileLines (st : State) (moveId : Nat) : List MoveLine :=
  st.lines.filter (fun l => l.move_id == moveId && l.asset_profile_id.isSome)

/-- `post` for a single move of `self` (lines 63-91): one asset per line
carrying an asset profile, then one message on the move referencing the
assets now linked to those lines. -/
def postMove (ctx : Ctx) (st : State) (moveId : Nat) : State :=
  match st.moves.find? (fun m => m.id == moveId) with
  | none => st
  | some move =>
    let st1 := (profileLines st moveId).foldl
      (fun s aml => createAssetFromLine ctx move aml s) st
    let refs := (profileLines st1 moveId).filterMap (fun l => l.asset_id)
    { st1 with messages := st1.messages ++ [(moveId, refs)] }

/-- `AccountMove.post` (lines 61-91).  `super().post()` only flips the
posting state, which this model does not track. -/
def post (ctx : Ctx) (ids : List Nat) (st : State) : State :=
  ids.foldl (postMove ctx) st

/-! ### `AccountMove.unlink` (source lines 30-45) -/

/-- The search domain of `unlink`: depreciation lines with `move_id` among
the unlinked moves and type `depreciate` or `remove`. -/
def attachedDeprOrRemove (ids : List Nat) (d : AssetLine) : Bool :=
  (match d.move_id with
   | some i => ids.contains i
   | none => false) &&
  (d.ltype == "depreciate" || d.ltype == "remove")

/-- `AccountMove.unlink`: refuse when such depreciation lines exist and the
`unlink_from_asset` context is absent; otherwise detach them
(`move_id := False`, triggering the store function) and delete the moves
(with their lines, as the base model cascades). -/
def moveUnlink (ctx : Ctx) (ids : List Nat) (st : State) :
    Except GuardErr State :=
  let deprs := st.assetLines.filter (attachedDeprOrRemove ids)
  if !deprs.isEmpty && !ctx.unlink_from_asset then
    .error .linkedEntry
  else
    .ok { st with
      assetLines := st.assetLines.map (fun d =>
        if attachedDeprOrRemove ids d then { d with move_id := none } else d)
      moves := st.moves.filter (fun m => !ids.contains m.id)
      lines := st.lines.filter (fun l => !ids.contains l.move_id) }

/-! ### `AccountMove.write` (source lines 47-59) -/

/-- A `vals` dict for `account.move.write`: the two protected fields
(`FIELDS_AFFECTS_ASSET_MOVE = {"journal_id", "date"}`) plus `ref` standing
for any unprotected field. -/
structure MoveVals where
  journal_id : Option Nat
  date : Option Nat
  ref : Option String
deriving DecidableEq, Repr

/-- `set(vals).intersection(FIELDS_AFFECTS_ASSET_MOVE)` is nonempty. -/
def MoveVals.affectsAssetMove (v : MoveVals) : Bool :=
  v.journal_id.isSome || v.date.isSome

/-- `super().write(vals)` on one move: apply the present fields. -/
def applyMoveVals (v : MoveVals) (m : Move) : Move :=
  { m with
    journal_id := v.journal_id.getD m.journal_id
    date := v.date.getD m.date
    ref := v.ref.getD m.ref }

/-- The search domain of the move-write guard: `depreciate`-type
depreciation lines attached to one of the written moves. -/
def attachedDepreciate (ids : List Nat) (d : AssetLine) : Bool :=
  (match d.move_id with
   | some i => ids.contains i
   | none => false) && d.ltype == "depreciate"

/-- `AccountMove.write`: refuse to change `journal_id`/`date` while a
`depreciate`-type depreciation line is attached to any of the moves;
otherwise delegate to the normal update. -/
def moveWrite (ids : List Nat) (v : MoveVals) (st : State) :
    Except GuardErr State :=
  if v.affectsAssetMove &&
      !(st.assetLines.filter (attachedDepreciate ids)).isEmpty then
    .error .linkedDeprMove
  else
    .ok { st with moves := st.moves.map (fun m =>
      if ids.contains m.id then applyMoveVals v m else m) }

/-! ### `AccountMoveLine._expand_asset_line` (source lines 178-190) -/

/-- Python `int(qty)` for the positive quantities the expansion guard
admits (`quantity > 1`): truncation = floor = `num / den` in `Nat`. -/
def ratTruncNat (q : Rat) : Nat := q.num.toNat / q.den

/-- `aml._onchange_price_subtotal()`: recompute the subtotal from the
quantity and unit price. -/
def recomputeSubtotal (l : MoveLine) : MoveLine :=
  { l with price_subtotal := l.quantity * l.price_unit }

/-- `_expand_asset_line` on one line: when an asset profile with
`asset_product_item` is set and `quantity > 1`, rewrite the line to
quantity 1 with name suffix 1, recompute its subtotal, and copy it
`int(qty) - 1` times with suffixes `2 .. int(qty)`; otherwise leave the
line alone.  Returns the rewritten line followed by the copies, which get
fresh ids from `freshId` on. -/
def expandAssetLine (profiles : List AssetProfile) (freshId : Nat)
    (l : MoveLine) : List MoveLine :=
  match l.asset_profile_id with
  | none => [l]
  | some pid =>
    if 1 < l.quantity then
      match profiles.find? (fun p => p.id == pid) with
      | some profile =>
        if profile.asset_product_item then
          let base := recomputeSubtotal
            { l with quantity := 1, name := l.name ++ " 1" }
          base :: (List.range (ratTruncNat l.quantity - 1)).map (fun i =>
            { base with id := freshId + i, name := l.name ++ " " ++ toString (i + 2) })
        else [l]
      | none => [l]
    else [l]

/-- Run the expansion of one line inside the store: the original is
rewritten in place and the copies are appended as new records. -/
def expandLineInState (st : State) (lineId : Nat) : State :=
  match st.lines.find? (fun l => l.id == lineId) with
  | none => st
  | some l =>
    match expandAssetLine st.profiles st.nextLineId l with
    | [] => st
    | base :: copies =>
      { st with
        lines := (st.lines.map (fun x =>
          if x.id == lineId then base else x)) ++ copies
        nextLineId := st.nextLineId + copies.length }

/-! ### `AccountMoveLine.write` (source lines 143-176) -/

/-- A `vals` dict for `account.move.line.write`: the seven protected
fields of `FIELDS_AFFECTS_ASSET_MOVE_LINE` plus `quantity` and `name`.
For the two reference fields set in workflows, `some none` models writing
`False` and `some (some i)` writing id `i`. -/
structure LineVals where
  credit : Option Rat
  debit : Option Rat
  account_id : Option Nat
  journal_id : Option Nat
  date : Option Nat
  asset_profile_id : Option (Option Nat)
  asset_id : Option (Option Nat)
  quantity : Option Rat
  name : Option String
deriving DecidableEq, Repr

/-- `set(vals).intersection(FIELDS_AFFECTS_ASSET_MOVE_LINE)` is nonempty. -/
def LineVals.affectsAssetLine (v : LineVals) : Bool :=
  v.credit.isSome || v.debit.isSome || v.account_id.isSome ||
  v.journal_id.isSome || v.date.isSome || v.asset_profile_id.isSome ||
  v.asset_id.isSome

/-- Python `list(vals.keys()) == ["asset_id"]`. -/
def LineVals.onlyAssetId (v : LineVals) : Bool :=
  v.asset_id.isSome && v.credit.isNone && v.debit.isNone &&
  v.account_id.isNone && v.journal_id.isNone && v.date.isNone &&
  v.asset_profile_id.isNone && v.quantity.isNone && v.name.isNone

/-- Truthiness of `vals.get("asset_id")`: present and not `False`. -/
def LineVals.assetIdTruthy (v : LineVals) : Bool :=
  match v.asset_id with
  | some (some _) => true
  | _ => false

/-- `super().write(vals)` on one line: apply the present fields. -/
def applyLineVals (v : LineVals) (l : MoveLine) : MoveLine :=
  { l with
    credit := v.credit.getD l.credit
    debit := v.debit.getD l.debit
    account_id := v.account_id.getD l.account_id
    journal_id := v.journal_id.getD l.journal_id
    date := v.date.getD l.date
    asset_profile_id := v.asset_profile_id.getD l.asset_profile_id
    asset_id := v.asset_id.getD l.asset_id
    quantity := v.quantity.getD l.quantity
    name := v.name.getD l.name }

/-- `self`: the lines browsed by the write call. -/
def browseLines (st : State) (ids : List Nat) : List MoveLine :=
  st.lines.filter (fun l => ids.contains l.id)

/-- `self.filtered(lambda r: not r.move_id.is_sale_document())`. -/
def nonSaleLines (st : State) (ids : List Nat) : List MoveLine :=
  (browseLines st ids).filter (fun l => !lineIsSale st l)

/-- `AccountMoveLine.write`: the depreciation-link guard, the asset-link
guard, the normal update, then the per-unit expansion when `quantity` or
`asset_profile_id` was among the written fields. -/
def lineWrite (ctx : Ctx) (ids : List Nat) (v : LineVals) (st : State) :
    Except GuardErr State :=
  if v.affectsAssetLine && !(ctx.allow_asset_removal && v.onlyAssetId) &&
      (nonSaleLines st ids).any (fun l => l.asset_id.isSome) then
    .error .linkedDeprLine
  else if !(nonSaleLines st ids).isEmpty && v.assetIdTruthy &&
      !ctx.allow_asset then
    .error .notAllowedLink
  else
    let st1 := { st with lines := st.lines.map (fun l =>
      if ids.contains l.id then applyLineVals v l else l) }
    .ok (if v.quantity.isSome || v.asset_profile_id.isSome then
          ids.foldl expandLineInState st1
        else st1)

/-! ### `AccountMove._reverse_move_vals` (source lines 99-107) -/

/-- The `(0, 0, vals)` payload of one synthesized reversal line: the two
asset fields this method rewrites plus the copied amounts. -/
structure RevLineVals where
  asset_profile_id : Option Nat
  asset_id : Option Nat
  debit : Rat
  credit : Rat
deriving DecidableEq, Repr

/-- The value set `super()._reverse_move_vals` returned. -/
structure RevMoveVals where
  mtype : String
  line_ids : List RevLineVals
deriving DecidableEq, Repr

/-- One iteration of the loop (lines 102-106): delete the asset the
reversal line references (`browse` of `False` is empty, so nothing is
deleted then) and clear `asset_profile_id`/`asset_id` on the line. -/
def reverseLineStep (acc : List Asset × List RevLineVals)
    (lv : RevLineVals) : List Asset × List RevLineVals :=
  let assets := match lv.asset_id with
    | some a => acc.1.filter (fun x => !(x.id == a))
    | none => acc.1
  (assets, acc.2 ++ [{ lv with asset_profile_id := none, asset_id := none }])

/-- `AccountMove._reverse_move_vals` applied to the value set computed by
`super()`: customer invoices/refunds pass through untouched, every other
document type has its reversal lines unlinked from assets and those assets
deleted.  Returns the adjusted value set and the surviving assets. -/
def reverseMoveVals (mv : RevMoveVals) (assets : List Asset) :
    RevMoveVals × List Asset :=
  if mv.mtype == "out_invoice" || mv.mtype == "out_refund" then
    (mv, assets)
  else
    let r := mv.line_ids.foldl reverseLineStep (assets, [])
    ({ mv with line_ids := r.2 }, r.1)

/-! ### Observations on guarded calls -/

/-- Whether a guarded call succeeded (no `UserError` was raised). -/
def okB : Except GuardErr State → Bool
  | .ok _ => true
  | .error _ => false

/-- The store after a guarded call: the new store on success, the original
store on failure (the enclosing transaction rolls back). -/
def afterG (st : State) : Except GuardErr State → State
  | .ok st2 => st2
  | .error _ => st

/-! ### Sample records used to instantiate the theorems -/

/-- An empty execution context: no guard-bypass flag is set. -/
def ctxPlain : Ctx :=
  { allow_asset := false, allow_asset_removal := false,
    unlink_from_asset := false, company_id := none }

/-- A profile with per-unit tracking enabled. -/
def profItem : AssetProfile := { id := 1, asset_product_item := true }

/-- A miscellaneous (non-sale) journal entry. -/
def mvEntry : Move :=
  { id := 1, name := "MISC1", date := 20200101, journal_id := 7,
    mtype := "entry", ref := "" }

/-- A customer invoice (sale document). -/
def mvSale : Move :=
  { id := 2, name := "INV1", date := 20200102, journal_id := 8,
    mtype := "out_invoice", ref := "" }

/-- A debit line of `mvEntry` carrying an asset profile. -/
def lnDebit : MoveLine :=
  { id := 1, move_id := 1, name := "Laptop", debit := 100, credit := 0,
    account_id := 5, journal_id := 7, date := 20200101,
    asset_profile_id := some 1, asset_id := none, quantity := 1,
    price_unit := 100, price_subtotal := 100, partner_id := some 9,
    analytic_account_id := none }

/-! ### C1 -/

/-- C1: Posting a non-sale journal entry creates, for the entry line
carrying a non-empty asset profile, exactly one asset whose profile is the
line's profile, whose purchase value is the line's debit when nonzero and
otherwise the negated credit, whose code is the entry's name and start
date the entry's date; the line's `asset_id` is set to the new asset's id
and one message referencing the created assets is posted on the entry. -/
theorem post_nonsale_creates_one_asset_per_profile_line
    (ctx : Ctx) (m : Move) (l : MoveLine) (pid n k : Nat)
    (profs : List AssetProfile) (_hsale : m.is_sale_document = false)
    (hmv : l.move_id = m.id) (hp : l.asset_profile_id = some pid) :
    post ctx [m.id]
      { moves := [m], lines := [l], assets := [], assetLines := [],
        profiles := profs, messages := [], nextAssetId := n, nextLineId := k } =
      { moves := [m]
        lines := [{ l with asset_id := some n }]
        assets := [{ id := n, name := l.name, code := m.name, profile_id := pid,
                     purchase_value := if l.debit ≠ 0 then l.debit else -l.credit,
                     partner_id := l.partner_id, date_start := m.date,
                     account_analytic_id := l.analytic_account_id,
                     company_id := ctx.company_id }]
        assetLines := [], profiles := profs,
        messages := [(m.id, [n])], nextAssetId := n + 1, nextLineId := k } := by
  simp [post, postMove, profileLines, createAssetFromLine, assetValsOfLine,
    depreciationBase, hmv, hp, List.find?, List.filter]

/-- Witness for C1 at a concrete non-sale entry with debit 100. -/
theorem post_nonsale_creates_one_asset_per_profile_line_witness :
    mvEntry.is_sale_document = false ∧
    post ctxPlain [mvEntry.id]
      { moves := [mvEntry], lines := [lnDebit], assets := [], assetLines := [],
        profiles := [], messages := [], nextAssetId := 10, nextLineId := 20 } =
      { moves := [mvEntry]
        lines := [{ lnDebit with asset_id := some 10 }]
        assets := [{ id := 10, name := "Laptop", code := "MISC1",
                     profile_id := 1, purchase_value := 100,
                     partner_id := some 9, date_start := 20200101,
                     account_analytic_id := none, company_id := none }]
        assetLines := [], profiles := [],
        messages := [(mvEntry.id, [10])], nextAssetId := 11, nextLineId := 20 } := by
  refine ⟨by decide, ?_⟩
  have h := post_nonsale_creates_one_asset_per_profile_line
    ctxPlain mvEntry lnDebit 1 10 20 [] (by decide) rfl rfl
  rw [h]
  decide

/-! ### C2 -/

/-- A credit line of `mvEntry` carrying an asset profile. -/
def lnCredit : MoveLine := { lnDebit with debit := 0, credit := 100 }

/-- The store holding `mvEntry` with the single line `lnCredit`. -/
def stCredit : State :=
  { moves := [mvEntry], lines := [lnCredit], assets := [], assetLines := [],
    profiles := [], messages := [], nextAssetId := 10, nextLineId := 20 }

/-- C2 counterexample: posting a line with credit 100 and debit 0 yields an
asset with purchase value -100, not the sign-normalized 100 the claim
states (`debit or -credit` negates the credit without normalizing). -/
theorem credit_line_asset_value_not_sign_normalized :
    ((post ctxPlain [mvEntry.id] stCredit).assets.map
      (fun a => a.purchase_value)) = [-100] ∧
    ¬((post ctxPlain [mvEntry.id] stCredit).assets.map
      (fun a => a.purchase_value)) = [100] := by
  constructor
  · decide
  · decide

/-- C2 as amended: posting a line with asset profile, debit 0 and credit
`c` creates an asset whose purchase value is `-c`, the negated credit. -/
theorem credit_line_asset_value_is_negated_credit
    (ctx : Ctx) (m : Move) (l : MoveLine) (pid n k : Nat)
    (profs : List AssetProfile)
    (hmv : l.move_id = m.id) (hp : l.asset_profile_id = some pid)
    (hd : l.debit = 0) :
    ((post ctx [m.id]
      { moves := [m], lines := [l], assets := [], assetLines := [],
        profiles := profs, messages := [], nextAssetId := n,
        nextLineId := k }).assets.map (fun a => a.purchase_value))
      = [-l.credit] := by
  simp [post, postMove, profileLines, createAssetFromLine, assetValsOfLine,
    depreciationBase, hmv, hp, hd, List.find?, List.filter]

/-- Witness for the amended C2 at credit 100. -/
theorem credit_line_asset_value_is_negated_credit_witness :
    ((post ctxPlain [mvEntry.id] stCredit).assets.map
      (fun a => a.purchase_value)) = [-(100 : Rat)] := by
  have h := credit_line_asset_value_is_negated_credit
    ctxPlain mvEntry lnCredit 1 10 20 [] rfl rfl rfl
  have h2 : ((post ctxPlain [mvEntry.id] stCredit).assets.map
      (fun a => a.purchase_value)) = [-lnCredit.credit] := h
  rw [h2]
  decide

/-! ### C3 -/

/-- A profile-carrying line of the customer invoice `mvSale`. -/
def lnSaleProf : MoveLine := { lnDebit with id := 3, move_id := 2 }

/-- The store holding the customer invoice `mvSale` with `lnSaleProf`. -/
def stSale : State :=
  { moves := [mvSale], lines := [lnSaleProf], assets := [], assetLines := [],
    profiles := [], messages := [], nextAssetId := 10, nextLineId := 20 }

/-- C3 counterexample: `post` has no sale-document filter, so posting a
customer invoice whose line carries an asset profile does set that line's
`asset_id`, contrary to the claim that it never does. -/
theorem post_sale_document_sets_asset_id :
    mvSale.is_sale_document = true ∧
    (stSale.lines.map (fun l => l.asset_id)) = [none] ∧
    ((post ctxPlain [mvSale.id] stSale).lines.map (fun l => l.asset_id))
      = [some 10] := by
  refine ⟨by decide, by decide, by decide⟩

/-- A `vals` dict writing only `asset_id := 42`. -/
def vSetAsset : LineVals :=
  { credit := none, debit := none, account_id := none, journal_id := none,
    date := none, asset_profile_id := none, asset_id := some (some 42),
    quantity := none, name := none }

/-- The store holding `mvEntry` with the single line `lnDebit`. -/
def stEntry : State :=
  { moves := [mvEntry], lines := [lnDebit], assets := [], assetLines := [],
    profiles := [], messages := [], nextAssetId := 10, nextLineId := 20 }

/-- C3 as amended: a line write may give `asset_id` a non-empty value on a
line of a non-sale document only under the `allow_asset` context
(otherwise the write is rejected), and posting-time asset creation sets
`asset_id` on profile-carrying lines of sale and non-sale documents alike
— in particular posting a customer invoice does set `asset_id`. -/
theorem asset_id_set_only_by_post_or_allow_asset :
    (∀ (ctx : Ctx) (ids : List Nat) (v : LineVals) (st : State),
      ctx.allow_asset = false → v.assetIdTruthy = true →
      (nonSaleLines st ids).isEmpty = false →
      okB (lineWrite ctx ids v st) = false) ∧
    (∀ (ctx : Ctx) (m : Move) (l : MoveLine) (pid n k : Nat)
       (profs : List AssetProfile),
      m.is_sale_document = true →
      l.move_id = m.id → l.asset_profile_id = some pid →
      ((post ctx [m.id]
        { moves := [m], lines := [l], assets := [], assetLines := [],
          profiles := profs, messages := [], nextAssetId := n,
          nextLineId := k }).lines) = [{ l with asset_id := some n }]) := by
  constructor
  · intro ctx ids v st ha ht hns
    unfold lineWrite
    split
    · rfl
    · split
      · rfl
      · next hc2 =>
        exfalso
        apply hc2
        rw [hns, ht, ha]
        rfl
  · intro ctx m l pid n k profs _hsale hmv hp
    simp [post, postMove, profileLines, createAssetFromLine, assetValsOfLine,
      hmv, hp, List.find?, List.filter]

/-- Witness for the amended C3: the rejected un-permitted write and the
posting of a concrete customer invoice. -/
theorem asset_id_set_only_by_post_or_allow_asset_witness :
    okB (lineWrite ctxPlain [1] vSetAsset stEntry) = false ∧
    ((post ctxPlain [mvSale.id] stSale).lines)
      = [{ lnSaleProf with asset_id := some 10 }] := by
  refine ⟨?_, ?_⟩
  · exact asset_id_set_only_by_post_or_allow_asset.1 ctxPlain [1] vSetAsset
      stEntry rfl rfl (by decide)
  · exact asset_id_set_only_by_post_or_allow_asset.2 ctxPlain mvSale
      lnSaleProf 1 10 20 [] (by decide) rfl rfl

/-! ### C4 -/

/-- A `vals` dict writing only the protected field `debit := 5`. -/
def vSetDebit : LineVals :=
  { credit := none, debit := some 5, account_id := none, journal_id := none,
    date := none, asset_profile_id := none, asset_id := none,
    quantity := none, name := none }

/-- C4 counterexample: a write touching the protected field `debit`, not
under the removal exception, nevertheless succeeds because no affected
non-sale line carries a linked asset — the claim's "fails whenever the
changed-field set intersects" direction is false. -/
theorem line_write_protected_field_without_linked_asset_succeeds :
    vSetDebit.affectsAssetLine = true ∧
    (ctxPlain.allow_asset_removal && vSetDebit.onlyAssetId) = false ∧
    okB (lineWrite ctxPlain [1] vSetDebit stEntry) = true := by
  refine ⟨by decide, by decide, by decide⟩

/-- C4 as amended: the "linked to an asset depreciation line" rejection
happens exactly when the changed-field set intersects the protected set,
the change is not solely `asset_id` under the removal context, and at
least one affected non-sale line currently has a non-empty `asset_id`. -/
theorem line_write_linked_depr_error_iff
    (ctx : Ctx) (ids : List Nat) (v : LineVals) (st : State) :
    lineWrite ctx ids v st = Except.error GuardErr.linkedDeprLine ↔
      (v.affectsAssetLine && !(ctx.allow_asset_removal && v.onlyAssetId) &&
        (nonSaleLines st ids).any (fun l => l.asset_id.isSome)) = true := by
  unfold lineWrite
  split
  · next hc => simp only [hc]
  · next hc =>
    constructor
    · intro hEq
      exfalso
      split at hEq
      · simp at hEq
      · simp at hEq
    · intro hr
      exact absurd hr hc

/-! ### C5 -/

/-- Filtering out the moves with a given id leaves no move of that id:
the entry was deleted. -/
theorem unlink_removes_move (l : List Move) (i : Nat) :
    ((l.filter (fun m => !([i].contains m.id))).all
      (fun m => !(m.id == i))) = true := by
  simp only [List.all_eq_true, List.mem_filter]
  intro m hm
  simpa using hm.2

/-- Detaching the matched depreciation lines leaves none attached. -/
theorem detach_filter_nil (ids : List Nat) (t : List AssetLine) :
    ((t.map (fun d => if attachedDeprOrRemove ids d then
        { d with move_id := none } else d)).filter
      (attachedDeprOrRemove ids)) = [] := by
  induction t with
  | nil => rfl
  | cons d t ih =>
    by_cases h : attachedDeprOrRemove ids d = true
    · have hfd : attachedDeprOrRemove ids { d with move_id := none } = false :=
        rfl
      simp [h, hfd, ih]
    · simp [h, ih]

/-- C5: deleting an entry with no attached depreciate/remove depreciation
line succeeds and removes the entry; with one attached and no bypass
context the delete fails with the "linked accounting entry" error and the
store is unchanged (the transaction rolls back); with the bypass the
depreciation lines are detached and deletion proceeds. -/
theorem move_unlink_guard_spec (ctx : Ctx) (i : Nat) (st : State) :
    ((st.assetLines.filter (attachedDeprOrRemove [i])).isEmpty = true →
      okB (moveUnlink ctx [i] st) = true ∧
      ((afterG st (moveUnlink ctx [i] st)).moves.all
        (fun m => !(m.id == i))) = true) ∧
    ((st.assetLines.filter (attachedDeprOrRemove [i])).isEmpty = false →
      ctx.unlink_from_asset = false →
      moveUnlink ctx [i] st = Except.error GuardErr.linkedEntry ∧
      afterG st (moveUnlink ctx [i] st) = st) ∧
    (ctx.unlink_from_asset = true →
      okB (moveUnlink ctx [i] st) = true ∧
      ((afterG st (moveUnlink ctx [i] st)).assetLines.filter
        (attachedDeprOrRemove [i])).isEmpty = true ∧
      ((afterG st (moveUnlink ctx [i] st)).moves.all
        (fun m => !(m.id == i))) = true) := by
  refine ⟨?_, ?_, ?_⟩
  · intro hEmpty
    have hcond : (!(st.assetLines.filter (attachedDeprOrRemove [i])).isEmpty &&
        !ctx.unlink_from_asset) = false := by rw [hEmpty]; rfl
    refine ⟨?_, ?_⟩
    · simp [moveUnlink, hcond, okB]
    · simp only [moveUnlink, hcond, Bool.false_eq_true, if_false, afterG]
      exact unlink_removes_move st.moves i
  · intro hNE hBy
    have hcond : (!(st.assetLines.filter (attachedDeprOrRemove [i])).isEmpty &&
        !ctx.unlink_from_asset) = true := by rw [hNE, hBy]; rfl
    refine ⟨?_, ?_⟩
    · simp [moveUnlink, hcond]
    · simp [moveUnlink, hcond, afterG]
  · intro hBy
    have hcond : (!(st.assetLines.filter (attachedDeprOrRemove [i])).isEmpty &&
        !ctx.unlink_from_asset) = false := by rw [hBy]; simp
    refine ⟨?_, ?_, ?_⟩
    · simp [moveUnlink, hcond, okB]
    · simp only [moveUnlink, hcond, Bool.false_eq_true, if_false, afterG]
      rw [detach_filter_nil]
      rfl
    · simp only [moveUnlink, hcond, Bool.false_eq_true, if_false, afterG]
      exact unlink_removes_move st.moves i

/-- A depreciation line of type `depreciate` posted through `mvEntry`. -/
def dprLine : AssetLine :=
  { id := 1, move_id := some 1, asset_id := 10, ltype := "depreciate" }

/-- The store `stEntry` with `dprLine` attached to `mvEntry`. -/
def stEntryDepr : State := { stEntry with assetLines := [dprLine] }

/-- The context carrying the internal unlink bypass flag. -/
def ctxBypass : Ctx := { ctxPlain with unlink_from_asset := true }

/-- Witness for C5 on concrete stores with and without an attached
depreciation line, with and without the bypass context. -/
theorem move_unlink_guard_spec_witness :
    (okB (moveUnlink ctxPlain [1] stEntry) = true ∧
      ((afterG stEntry (moveUnlink ctxPlain [1] stEntry)).moves.all
        (fun m => !(m.id == 1))) = true) ∧
    (moveUnlink ctxPlain [1] stEntryDepr = Except.error GuardErr.linkedEntry ∧
      afterG stEntryDepr (moveUnlink ctxPlain [1] stEntryDepr) = stEntryDepr) ∧
    (okB (moveUnlink ctxBypass [1] stEntryDepr) = true ∧
      ((afterG stEntryDepr (moveUnlink ctxBypass [1] stEntryDepr)).assetLines.filter
        (attachedDeprOrRemove [1])).isEmpty = true ∧
      ((afterG stEntryDepr (moveUnlink ctxBypass [1] stEntryDepr)).moves.all
        (fun m => !(m.id == 1))) = true) := by
  refine ⟨(move_unlink_guard_spec ctxPlain 1 stEntry).1 (by decide),
    (move_unlink_guard_spec ctxPlain 1 stEntryDepr).2.1 (by decide) rfl,
    (move_unlink_guard_spec ctxBypass 1 stEntryDepr).2.2 rfl⟩

/-! ### C6 -/

/-- C6: while a `depreciate`-type depreciation line is attached, changing
the entry's journal or date fails with the "linked to asset depreciation
line" error, while changing any other field is delegated to the normal
update; without such a depreciation line every change is delegated. -/
theorem move_write_guard_spec (i : Nat) (v : MoveVals) (st : State) :
    ((st.assetLines.filter (attachedDepreciate [i])).isEmpty = false →
      v.affectsAssetMove = true →
      moveWrite [i] v st = Except.error GuardErr.linkedDeprMove) ∧
    ((st.assetLines.filter (attachedDepreciate [i])).isEmpty = false →
      v.affectsAssetMove = false →
      moveWrite [i] v st = Except.ok { st with
        moves := st.moves.map
          (fun m => if [i].contains m.id then applyMoveVals v m else m) }) ∧
    ((st.assetLines.filter (attachedDepreciate [i])).isEmpty = true →
      moveWrite [i] v st = Except.ok { st with
        moves := st.moves.map
          (fun m => if [i].contains m.id then applyMoveVals v m else m) }) := by
  refine ⟨?_, ?_, ?_⟩
  · intro h1 h2
    have hcond : (v.affectsAssetMove &&
        !(st.assetLines.filter (attachedDepreciate [i])).isEmpty) = true := by
      rw [h1, h2]; rfl
    simp [moveWrite, hcond]
  · intro _h1 h2
    have hcond : (v.affectsAssetMove &&
        !(st.assetLines.filter (attachedDepreciate [i])).isEmpty) = false := by
      rw [h2]; rfl
    simp [moveWrite, hcond]
  · intro h1
    have hcond : (v.affectsAssetMove &&
        !(st.assetLines.filter (attachedDepreciate [i])).isEmpty) = false := by
      rw [h1]; simp
    simp [moveWrite, hcond]

/-- A `vals` dict for the move changing only the protected `journal_id`. -/
def vMoveJournal : MoveVals := { journal_id := some 9, date := none, ref := none }

/-- A `vals` dict for the move changing only the unprotected `ref`. -/
def vMoveRef : MoveVals := { journal_id := none, date := none, ref := some "R" }

/-- Witness for C6: with an attached depreciate line the journal change is
rejected while a `ref` change goes through, and without one the journal
change goes through. -/
theorem move_write_guard_spec_witness :
    (moveWrite [1] vMoveJournal stEntryDepr
      = Except.error GuardErr.linkedDeprMove) ∧
    (moveWrite [1] vMoveRef stEntryDepr
      = Except.ok { stEntryDepr with
          moves := stEntryDepr.moves.map
            (fun m => if [1].contains m.id then applyMoveVals vMoveRef m else m) }) ∧
    (moveWrite [1] vMoveJournal stEntry
      = Except.ok { stEntry with
          moves := stEntry.moves.map
            (fun m => if [1].contains m.id then applyMoveVals vMoveJournal m else m) }) := by
  refine ⟨(move_write_guard_spec 1 vMoveJournal stEntryDepr).1 (by decide) rfl,
    (move_write_guard_spec 1 vMoveRef stEntryDepr).2.1 (by decide) rfl,
    (move_write_guard_spec 1 vMoveJournal stEntry).2.2 (by decide)⟩

/-! ### C7 -/

/-- C7: expanding a quantity-3 "Widget" line whose profile tracks units
per item yields exactly the three lines "Widget 1", "Widget 2",
"Widget 3", each of quantity 1, whose quantities sum to the original
quantity and whose subtotals sum to the original subtotal. -/
theorem expand_quantity_three_product_item
    (profs : List AssetProfile) (fid : Nat) (l : MoveLine) (pid : Nat)
    (p : AssetProfile)
    (hp : l.asset_profile_id = some pid)
    (hfind : profs.find? (fun q => q.id == pid) = some p)
    (hitem : p.asset_product_item = true)
    (hq : l.quantity = 3)
    (hname : l.name = "Widget")
    (hsub : l.price_subtotal = l.quantity * l.price_unit) :
    ((expandAssetLine profs fid l).map (fun x => x.name)
        = ["Widget 1", "Widget 2", "Widget 3"]) ∧
    ((expandAssetLine profs fid l).map (fun x => x.quantity) = [1, 1, 1]) ∧
    (((expandAssetLine profs fid l).map (fun x => x.quantity)).sum
        = l.quantity) ∧
    (((expandAssetLine profs fid l).map (fun x => x.price_subtotal)).sum
        = l.price_subtotal) := by
  have h3 : ratTruncNat l.quantity = 3 := by rw [hq]; decide
  have hq1 : (1 : Rat) < l.quantity := by rw [hq]; decide
  have hrange : List.range (3 - 1) = [0, 1] := by decide
  have hexp : expandAssetLine profs fid l =
      [recomputeSubtotal { l with quantity := 1, name := l.name ++ " 1" },
       { recomputeSubtotal { l with quantity := 1, name := l.name ++ " 1" } with
          id := fid + 0, name := l.name ++ " " ++ toString (0 + 2) },
       { recomputeSubtotal { l with quantity := 1, name := l.name ++ " 1" } with
          id := fid + 1, name := l.name ++ " " ++ toString (1 + 2) }] := by
    simp only [expandAssetLine, hp, hq1, hfind, hitem, if_true, h3, hrange,
      List.map_cons, List.map_nil]
  rw [hexp]
  refine ⟨?_, ?_, ?_, ?_⟩
  · simp [recomputeSubtotal, hname]
    exact ⟨rfl, rfl⟩
  · simp [recomputeSubtotal]
  · simp [recomputeSubtotal, hq]
    norm_num
  · simp [recomputeSubtotal, hsub, hq]
    ring

/-- A quantity-3 "Widget" line carrying the per-unit profile. -/
def lnWidget : MoveLine :=
  { id := 4, move_id := 1, name := "Widget", debit := 150, credit := 0,
    account_id := 5, journal_id := 7, date := 20200101,
    asset_profile_id := some 1, asset_id := none, quantity := 3,
    price_unit := 50, price_subtotal := 150, partner_id := none,
    analytic_account_id := none }

/-- Witness for C7 on the concrete quantity-3 "Widget" line. -/
theorem expand_quantity_three_product_item_witness :
    ((expandAssetLine [profItem] 30 lnWidget).map (fun x => x.name)
        = ["Widget 1", "Widget 2", "Widget 3"]) ∧
    ((expandAssetLine [profItem] 30 lnWidget).map (fun x => x.quantity)
        = [1, 1, 1]) ∧
    (((expandAssetLine [profItem] 30 lnWidget).map (fun x => x.quantity)).sum
        = lnWidget.quantity) ∧
    (((expandAssetLine [profItem] 30 lnWidget).map
        (fun x => x.price_subtotal)).sum = lnWidget.price_subtotal) :=
  expand_quantity_three_product_item [profItem] 30 lnWidget 1 profItem
    rfl rfl rfl rfl rfl (by norm_num [lnWidget])

/-! ### C9 -/

/-- Python truncation agrees with the floor for positive rationals. -/
theorem ratTruncNat_eq_floor_toNat (q : Rat) (h : 0 < q) :
    ratTruncNat q = ⌊q⌋.toNat := by
  have hnum : 0 < q.num := Rat.num_pos.mpr h
  have hdiv : (q.num / (q.den : Int)) = ((q.num.toNat / q.den : Nat) : Int) := by
    rw [Int.natCast_div]
    congr 1
    exact (Int.toNat_of_nonneg hnum.le).symm
  rw [ratTruncNat, Rat.floor_def, hdiv, Int.toNat_natCast]

/-- C9: expanding a per-unit-tracked line with a fractional quantity
`q > 1` yields `⌊q⌋` lines of quantity 1 (the renamed original plus
`⌊q⌋ - 1` copies, as `range(1, int(qty))` truncates), so the resulting
quantities sum to `⌊q⌋` and not to the original quantity `q`. -/
theorem expand_fractional_quantity_truncates
    (profs : List AssetProfile) (fid : Nat) (l : MoveLine) (pid : Nat)
    (p : AssetProfile)
    (hp : l.asset_profile_id = some pid)
    (hfind : profs.find? (fun q => q.id == pid) = some p)
    (hitem : p.asset_product_item = true)
    (hq1 : 1 < l.quantity)
    (hden : l.quantity.den ≠ 1) :
    ((expandAssetLine profs fid l).length = ⌊l.quantity⌋.toNat) ∧
    ((expandAssetLine profs fid l).map (fun x => x.quantity)
        = List.replicate (⌊l.quantity⌋.toNat) 1) ∧
    (((expandAssetLine profs fid l).map (fun x => x.quantity)).sum
        = ((⌊l.quantity⌋.toNat : Nat) : Rat)) ∧
    (((expandAssetLine profs fid l).map (fun x => x.quantity)).sum
        ≠ l.quantity) := by
  have h0 : (0:Rat) < l.quantity := lt_trans one_pos hq1
  have htr := ratTruncNat_eq_floor_toNat l.quantity h0
  have hge1 : 1 ≤ ⌊l.quantity⌋.toNat := by
    have h1 : (1:Int) ≤ ⌊l.quantity⌋ := by
      rw [Int.le_floor]; push_cast; exact hq1.le
    omega
  have hexp : (expandAssetLine profs fid l).map (fun x => x.quantity)
      = List.replicate (⌊l.quantity⌋.toNat) 1 := by
    simp only [expandAssetLine, hp, hq1, hfind, hitem, if_true,
      List.map_cons, List.map_map]
    rw [List.eq_replicate_iff]
    constructor
    · simp [htr]
      omega
    · intro b hb
      simp [recomputeSubtotal] at hb
      rcases hb with hb | ⟨-, hb⟩ <;> first | exact hb | exact hb.symm
  have hlen : (expandAssetLine profs fid l).length = ⌊l.quantity⌋.toNat := by
    have hc := congrArg List.length hexp
    simpa using hc
  refine ⟨hlen, hexp, ?_, ?_⟩
  · rw [hexp, List.sum_replicate, nsmul_eq_mul, mul_one]
  · rw [hexp, List.sum_replicate, nsmul_eq_mul, mul_one]
    intro h
    apply hden
    rw [← h]
    exact Rat.den_natCast _

/-- A "Widget" line with the fractional quantity 5/2. -/
def lnHalf : MoveLine :=
  { id := 5, move_id := 1, name := "Widget", debit := 125, credit := 0,
    account_id := 5, journal_id := 7, date := 20200101,
    asset_profile_id := some 1, asset_id := none, quantity := mkRat 5 2,
    price_unit := 50, price_subtotal := 125, partner_id := none,
    analytic_account_id := none }

/-- Witness for C9 at quantity 5/2: two unit lines, summing to 2 ≠ 5/2. -/
theorem expand_fractional_quantity_truncates_witness :
    ((expandAssetLine [profItem] 40 lnHalf).length = 2) ∧
    ((expandAssetLine [profItem] 40 lnHalf).map (fun x => x.quantity)
        = List.replicate 2 1) ∧
    (((expandAssetLine [profItem] 40 lnHalf).map (fun x => x.quantity)).sum
        = ((2 : Nat) : Rat)) ∧
    (((expandAssetLine [profItem] 40 lnHalf).map (fun x => x.quantity)).sum
        ≠ lnHalf.quantity) := by
  have h := expand_fractional_quantity_truncates [profItem] 40 lnHalf 1 profItem
    rfl rfl rfl (by decide) (by decide)
  have hfl : ⌊lnHalf.quantity⌋.toNat = 2 := by decide
  rw [hfl] at h
  exact h

/-! ### C8 -/

/-- Assets surviving the reversal loop were already in the store. -/
theorem reverse_fold_assets_subset (lvs : List RevLineVals)
    (acc : List Asset × List RevLineVals) (x : Asset)
    (hx : x ∈ (lvs.foldl reverseLineStep acc).1) : x ∈ acc.1 := by
  induction lvs generalizing acc with
  | nil => exact hx
  | cons lv t ih =>
    rw [List.foldl_cons] at hx
    have hx2 := ih _ hx
    cases h : lv.asset_id with
    | none => simpa [reverseLineStep, h] using hx2
    | some a =>
      have hx3 : x ∈ acc.1.filter (fun y => !(y.id == a)) := by
        simpa [reverseLineStep, h] using hx2
      exact List.mem_of_mem_filter hx3

/-- Every reversal line synthesized by the loop has its asset linkage
cleared. -/
theorem reverse_fold_lines_cleared (lvs : List RevLineVals)
    (acc : List Asset × List RevLineVals)
    (h : (acc.2.all (fun lv =>
      lv.asset_profile_id == none && lv.asset_id == none)) = true) :
    (((lvs.foldl reverseLineStep acc).2).all (fun lv =>
      lv.asset_profile_id == none && lv.asset_id == none)) = true := by
  induction lvs generalizing acc with
  | nil => exact h
  | cons lv t ih =>
    rw [List.foldl_cons]
    apply ih
    simp [reverseLineStep, List.all_append, h]

/-- No asset referenced by a processed reversal line survives the loop. -/
theorem reverse_fold_assets_unreferenced (lvs : List RevLineVals)
    (acc : List Asset × List RevLineVals) :
    ∀ x ∈ (lvs.foldl reverseLineStep acc).1, ∀ lv ∈ lvs,
      lv.asset_id ≠ some x.id := by
  induction lvs generalizing acc with
  | nil =>
    intro x _ lv hlv
    cases hlv
  | cons lv t ih =>
    intro x hx lv2 hlv2
    rw [List.foldl_cons] at hx
    rcases List.mem_cons.mp hlv2 with rfl | hlv2
    · intro heq
      have hsub := reverse_fold_assets_subset t _ x hx
      rw [reverseLineStep, heq] at hsub
      have hm := List.mem_filter.mp hsub
      simp at hm
    · exact ih _ x hx lv2 hlv2

/-- C8: reversing a non-sale document deletes every asset its reversal
lines reference and clears the asset linkage on every synthesized line;
reversing a customer invoice or refund leaves values and assets alone. -/
theorem reverse_nonsale_deletes_assets_and_clears_links
    (mv : RevMoveVals) (assets : List Asset) :
    (mv.mtype ≠ "out_invoice" → mv.mtype ≠ "out_refund" →
      ((reverseMoveVals mv assets).1.line_ids.all (fun lv =>
        lv.asset_profile_id == none && lv.asset_id == none)) = true ∧
      ((reverseMoveVals mv assets).2.all (fun x =>
        mv.line_ids.all (fun lv => !(lv.asset_id == some x.id)))) = true) ∧
    ((mv.mtype = "out_invoice" ∨ mv.mtype = "out_refund") →
      reverseMoveVals mv assets = (mv, assets)) := by
  constructor
  · intro h1 h2
    have hcond : (mv.mtype == "out_invoice" || mv.mtype == "out_refund")
        = false := by
      simp [h1, h2]
    constructor
    · simp only [reverseMoveVals, hcond, Bool.false_eq_true, if_false]
      exact reverse_fold_lines_cleared mv.line_ids (assets, []) rfl
    · simp only [reverseMoveVals, hcond, Bool.false_eq_true, if_false]
      rw [List.all_eq_true]
      intro x hx
      rw [List.all_eq_true]
      intro lv hlv
      have := reverse_fold_assets_unreferenced mv.line_ids (assets, []) x hx
        lv hlv
      simpa using this
  · intro h
    have hcond : (mv.mtype == "out_invoice" || mv.mtype == "out_refund")
        = true := by
      rcases h with h | h <;> simp [h]
    simp [reverseMoveVals, hcond]

/-- A reversal line value set still referencing asset 7. -/
def rvLine : RevLineVals :=
  { asset_profile_id := some 1, asset_id := some 7, debit := 0, credit := 100 }

/-- A computed vendor-refund reversal value set carrying `rvLine`. -/
def rvEntry : RevMoveVals := { mtype := "in_refund", line_ids := [rvLine] }

/-- The asset record the reversal line references. -/
def assetSeven : Asset :=
  { id := 7, name := "Laptop", code := "MISC1", profile_id := 1,
    purchase_value := 100, partner_id := none, date_start := 20200101,
    account_analytic_id := none, company_id := none }

/-- Witness for C8: the vendor-refund reversal deletes asset 7 and clears
the line linkage; the customer-refund reversal passes through unchanged. -/
theorem reverse_nonsale_deletes_assets_and_clears_links_witness :
    (((reverseMoveVals rvEntry [assetSeven]).1.line_ids.all (fun lv =>
        lv.asset_profile_id == none && lv.asset_id == none)) = true ∧
      ((reverseMoveVals rvEntry [assetSeven]).2.all (fun x =>
        rvEntry.line_ids.all (fun lv => !(lv.asset_id == some x.id)))) = true) ∧
    reverseMoveVals { rvEntry with mtype := "out_refund" } [assetSeven]
      = ({ rvEntry with mtype := "out_refund" }, [assetSeven]) := by
  refine ⟨(reverse_nonsale_deletes_assets_and_clears_links rvEntry
      [assetSeven]).1 (by decide) (by decide),
    (reverse_nonsale_deletes_assets_and_clears_links
      { rvEntry with mtype := "out_refund" } [assetSeven]).2 (Or.inr rfl)⟩

/-! ### C10 -/

/-- The context carrying only the internal removal flag. -/
def ctxRemoval : Ctx :=
  { allow_asset := false, allow_asset_removal := true,
    unlink_from_asset := false, company_id := none }

/-- C10: under the removal context without the creation context, a write
whose only changed field is `asset_id` with a non-empty value is rejected
with the "not allowed to link" error whenever an affected line belongs to
a non-sale document — the removal context never permits setting a new
asset link, only clearing one. -/
theorem removal_context_cannot_set_asset
    (ctx : Ctx) (ids : List Nat) (v : LineVals) (st : State)
    (hrem : ctx.allow_asset_removal = true)
    (hallow : ctx.allow_asset = false)
    (honly : v.onlyAssetId = true)
    (ht : v.assetIdTruthy = true)
    (hns : (nonSaleLines st ids).isEmpty = false) :
    lineWrite ctx ids v st = Except.error GuardErr.notAllowedLink := by
  have hc1 : (v.affectsAssetLine &&
      !(ctx.allow_asset_removal && v.onlyAssetId) &&
      (nonSaleLines st ids).any (fun l => l.asset_id.isSome)) = false := by
    rw [hrem, honly]
    simp
  have hc2 : (!(nonSaleLines st ids).isEmpty && v.assetIdTruthy &&
      !ctx.allow_asset) = true := by
    rw [hns, ht, hallow]
    rfl
  unfold lineWrite
  split
  · next hcg =>
    rw [hc1] at hcg
    simp at hcg
  · rfl

/-- Witness for C10: the removal context with a non-empty `asset_id`
value on a non-sale line is rejected. -/
theorem removal_context_cannot_set_asset_witness :
    lineWrite ctxRemoval [1] vSetAsset stEntry
      = Except.error GuardErr.notAllowedLink :=
  removal_context_cannot_set_asset ctxRemoval [1] vSetAsset stEntry
    rfl rfl rfl rfl (by decide)
